import Mathlib

/-!
Shallow embedding of the UX004 monitoring/scan service (src/UX3/app.py).

Randomness is made explicit: `random.randint(a, b)` becomes `randint a b r`
for an arbitrary draw `r : Nat`, which always lands in `[a, b]`;
`random.sample(l, k=3)` becomes `sample3 l r1 r2 r3`, successive removals at
random indices. The external Gemini call is modelled by its observable
outcome (`GeminiOutcome`), and the environment variable `GEMINI_API_KEY` by
an `Option String`. Exceptions are modelled by `Option`/sum results; a Lean
function that is total corresponds to Python code that returns normally.
-/

/-- Model of `random.randint(a, b)`: a uniform integer in `[a, b]`, here a
function of an arbitrary draw `r`. -/
def randint (a b r : Nat) : Nat := a + r % (b - a + 1)

/-- One entry of the static strengths catalog in `mock_scan`. -/
structure StrengthFinding where
  category : String
  title : String
  description : String
deriving DecidableEq, Repr

/-- One entry of the static weaknesses catalog in `mock_scan`. -/
structure WeaknessFinding where
  severity : String
  title : String
  description : String
  recommendation : String
deriving DecidableEq, Repr

/-- The `strengths` list literal of `mock_scan` (app.py lines 62-83). -/
def strengthsCatalog : List StrengthFinding :=
  [ { category := "Performance",
      title := "Excellent Logical Paint",
      description := "The Largest Contentful Paint (LCP) is under 1.2s, ensuring an immediate visual response for users." },
    { category := "Design",
      title := "Clear Visual Hierarchy",
      description := "Heading structures (H1-H3) are correctly implemented, facilitating easy scanning of content." },
    { category := "Security",
      title := "HTTPS Enforced",
      description := "All traffic is securely encrypted using modern TLS 1.3 protocols." },
    { category := "Mobile",
      title := "Responsive Viewport",
      description := "The layout adapts fluidly to mobile viewports without horizontal scrolling." } ]

/-- The `weaknesses` list literal of `mock_scan` (app.py lines 85-110). -/
def weaknessesCatalog : List WeaknessFinding :=
  [ { severity := "High",
      title := "Insufficient Color Contrast",
      description := "Primary text elements fall below the WCAG AA standard ratio of 4.5:1, impacting readability for low-vision users.",
      recommendation := "Darken the text color to #334155 (Slate-700) or higher." },
    { severity := "Medium",
      title := "Missing Non-Text Alternatives",
      description := "Several key navigation images lack \x27alt\x27 attributes, rendering them invisible to screen readers.",
      recommendation := "Audit all <img> tags and apply descriptive alt text." },
    { severity := "Medium",
      title := "Unoptimized JavaScript Chunks",
      description := "Large JS bundles are blocking the main thread for over 250ms, causing input delay.",
      recommendation := "Implement code-splitting and defer non-critical scripts." },
    { severity := "Low",
      title := "Tap Targets Too Small",
      description := "Mobile menu links have a hit area smaller than 48x48px, leading to potential \x27fat finger\x27 errors.",
      recommendation := "Increase padding on .nav-link elements." } ]

/-- Model of `random.sample(l, k=3)`: three successive draws without
replacement; each draw picks the index `r % remaining-length` and removes
that element before the next draw. -/
def sample3 {α : Type} (l : List α) (r1 r2 r3 : Nat) : List α :=
  let i1 := r1 % l.length
  let l1 := l.eraseIdx i1
  let i2 := r2 % l1.length
  let l2 := l1.eraseIdx i2
  let i3 := r3 % l2.length
  (l.get? i1).toList ++ (l1.get? i2).toList ++ (l2.get? i3).toList

/-- Observable outcome of one `model.generate_content(prompt)` call:
either the returned text, or an exception (`failure`). -/
inductive GeminiOutcome where
  | success (text : String)
  | failure
deriving DecidableEq, Repr

/-- Substring test on character lists, modelling Python's `in` on strings. -/
def containsSub (needle : List Char) : List Char → Bool
  | [] => needle.isEmpty
  | c :: t => needle.isPrefixOf (c :: t) || containsSub needle t

/-- The guard on app.py line 50:
`os.getenv("GEMINI_API_KEY") and "YOUR_GEMINI" not in os.getenv("GEMINI_API_KEY")`.
The env var is `none` when absent; an empty string is falsy in Python. -/
def geminiKeyUsable (key : Option String) : Bool :=
  match key with
  | none => false
  | some k => !k.isEmpty && !containsSub "YOUR_GEMINI".toList k.toList

/-- The initial `summary_text` of `mock_scan` (app.py line 47). -/
def defaultSummary : String :=
  "Analysis complete. Optimization opportunities detected in Performance and Accessibility."

/-- The except-branch fallback of `mock_scan` (app.py line 60). -/
def fallbackSummary : String :=
  "Standard Audit Complete: Analysis indicates solid performance metrics, though accessibility compliance requires attention. Recommended focus on color contrast and ARIA labels."

/-- The summary computation of `mock_scan` (app.py lines 47-60): when the key
is usable the Gemini call is attempted; on success its text is stripped, on
exception the fallback is substituted; when the key is unusable the call is
skipped and the initial summary stands. -/
def summaryText (key : Option String) (call : GeminiOutcome) : String :=
  if geminiKeyUsable key then
    match call with
    | .success t => t.trim
    | .failure => fallbackSummary
  else defaultSummary

/-- The dictionary returned by `mock_scan`; the fixed four-key `categories`
dict becomes four fields. -/
structure ScanResult where
  url : String
  timestamp : String
  score : Nat
  performance : Nat
  accessibility : Nat
  best_practices : Nat
  seo : Nat
  summary : String
  strengths : List StrengthFinding
  weaknesses : List WeaknessFinding
deriving DecidableEq, Repr

/-- The randomness consumed by one `mock_scan` call: four `randint` draws and
six `random.sample` index draws. -/
structure ScanRand where
  perf : Nat
  acc : Nat
  best : Nat
  seoR : Nat
  s1 : Nat
  s2 : Nat
  s3 : Nat
  w1 : Nat
  w2 : Nat
  w3 : Nat
deriving DecidableEq, Repr

/-- `mock_scan` (app.py lines 31-126). `time.sleep` has no observable effect.
`int(sum(...) / 4)` on these sums equals floor division by 4 (the float
quotient is exact for division by a power of two and `int` truncates a
nonnegative value downward), hence `Nat` division. `now` stands for the
formatted current time. -/
def mock_scan (url : String) (key : Option String) (call : GeminiOutcome)
    (rnd : ScanRand) (now : String) : ScanResult :=
  let performance := randint 75 98 rnd.perf
  let accessibility := randint 65 90 rnd.acc
  let best_practices := randint 80 100 rnd.best
  let seo := randint 70 95 rnd.seoR
  let overall_score := (performance + accessibility + best_practices + seo) / 4
  { url := url
    timestamp := now
    score := overall_score
    performance := performance
    accessibility := accessibility
    best_practices := best_practices
    seo := seo
    summary := summaryText key call
    strengths := sample3 strengthsCatalog rnd.s1 rnd.s2 rnd.s3
    weaknesses := sample3 weaknessesCatalog rnd.w1 rnd.w2 rnd.w3 }

/-- Outcome of a route handler: a JSON payload or an HTTP error response. -/
inductive ApiResult (α : Type) where
  | ok (value : α)
  | clientError (code : Nat) (message : String)
deriving DecidableEq, Repr

/-- The `/analyze` handler (app.py lines 133-138): `data.get('url')` is `none`
when the field is absent; `if not url` also catches the empty string. -/
def analyze (urlField : Option String) (key : Option String)
    (call : GeminiOutcome) (rnd : ScanRand) (now : String) : ApiResult ScanResult :=
  match urlField with
  | none => .clientError 400 "URL required"
  | some url =>
    if url.isEmpty then .clientError 400 "URL required"
    else .ok (mock_scan url key call rnd now)

/-- The `status` strings used by the monitoring system. -/
inductive Status where
  | Pending
  | Healthy
  | Warning
  | Critical
  | Error
deriving DecidableEq, Repr

/-- The status cascade of `check_monitored_sites` (app.py lines 212-214). -/
def statusOf (newScore : Int) : Status :=
  if newScore < 50 then .Critical
  else if newScore < 70 then .Warning
  else .Healthy

/-- The alert condition of `check_monitored_sites` (app.py line 222). -/
def alertOf (oldScore newScore : Int) : Bool := newScore < oldScore - 10

/-- The spec's AlertEvaluator (§4.3): the status/alert pair the scheduler
computes from the previous and new score. -/
def evaluate (oldScore newScore : Int) : Status × Bool :=
  (statusOf newScore, alertOf oldScore newScore)

/-- One record of `MONITORED_SITES` (app.py lines 251-256). -/
structure MonitoredSite where
  url : String
  score : Nat
  status : Status
  last_check : String
deriving DecidableEq, Repr

/-- The in-memory registry `MONITORED_SITES`. -/
abbrev Registry := List MonitoredSite

/-- The body of the per-site loop of `check_monitored_sites` (app.py lines
202-227). The engine outcome for a url is abstracted as `Option Nat`: `some
newScore` when `mock_scan` returns, `none` when it raises; the except branch
only sets `status = 'Error'`. The alert is a console print with no effect on
the record. -/
def checkSite (engine : String → Option Nat) (now : String)
    (site : MonitoredSite) : MonitoredSite :=
  match engine site.url with
  | none => { site with status := Status.Error }
  | some newScore =>
    { site with
        score := newScore
        status := statusOf (newScore : Int)
        last_check := now }

/-- `check_monitored_sites` (app.py lines 197-227): every record of the
snapshot is processed; a per-site exception is caught inside the loop body,
so the loop never aborts early. -/
def check_monitored_sites (engine : String → Option Nat) (now : String)
    (sites : Registry) : Registry :=
  sites.map (checkSite engine now)

/-- Outcome of `/api/monitor/add` (app.py lines 241-260). -/
inductive AddOutcome where
  | ok
  | urlRequired
  | alreadyMonitored
deriving DecidableEq, Repr

/-- `add_monitor` (app.py lines 241-260): reject a missing/empty url, then
reject a duplicate, otherwise append a fresh record. -/
def add_monitor (urlField : Option String) (sites : Registry) :
    AddOutcome × Registry :=
  match urlField with
  | none => (.urlRequired, sites)
  | some url =>
    if url.isEmpty then (.urlRequired, sites)
    else if sites.any (fun s => s.url == url) then (.alreadyMonitored, sites)
    else (.ok, sites ++
      [{ url := url, score := 0, status := Status.Pending, last_check := "Never" }])

/-- `remove_monitor` (app.py lines 262-268): rebuild the list keeping records
whose url differs from the given one. A missing field gives Python `None`,
which differs from every string, so everything is kept. -/
def remove_monitor (urlField : Option String) (sites : Registry) : Registry :=
  match urlField with
  | none => sites.filter (fun _ => true)
  | some url => sites.filter (fun s => s.url != url)

/-- The operations that mutate `MONITORED_SITES`. -/
inductive Op where
  | add (urlField : Option String)
  | rem (urlField : Option String)
  | tick (engine : String → Option Nat) (now : String)

/-- Apply one operation to the registry. -/
def stepOp (sites : Registry) : Op → Registry
  | .add u => (add_monitor u sites).2
  | .rem u => remove_monitor u sites
  | .tick engine now => check_monitored_sites engine now sites

/-- The registry reached from the empty initial state by a sequence of
operations. -/
def runOps (ops : List Op) : Registry := ops.foldl stepOp []

/-- The uniqueness invariant of the registry: no two records share a url. -/
def urlsNodup (sites : Registry) : Prop :=
  (sites.map (fun s => s.url)).Nodup

/-! Helper lemmas about drawing without replacement. -/

theorem get_not_mem_eraseIdx {α : Type} (l : List α) (h : l.Nodup) (i : Nat) (x : α)
    (hx : l.get? i = some x) : x ∉ l.eraseIdx i := by
  induction l generalizing i with
  | nil => simp at hx
  | cons a t ih =>
    rcases List.nodup_cons.mp h with ⟨ha, ht⟩
    cases i with
    | zero =>
      simp only [List.get?] at hx
      cases hx
      simpa [List.eraseIdx] using ha
    | succ j =>
      simp only [List.get?] at hx
      simp only [List.eraseIdx, List.mem_cons, not_or]
      constructor
      · rintro rfl
        exact ha (List.get?_mem hx)
      · exact ih ht j hx

theorem sample3_spec {α : Type} (l : List α) (hlen : l.length = 4) (hnd : l.Nodup)
    (r1 r2 r3 : Nat) :
    (sample3 l r1 r2 r3).length = 3 ∧ (sample3 l r1 r2 r3).Nodup ∧
    ∀ x ∈ sample3 l r1 r2 r3, x ∈ l := by
  have h1 : r1 % l.length < l.length := Nat.mod_lt _ (by omega)
  have hlen1 : (l.eraseIdx (r1 % l.length)).length = 3 := by
    rw [List.length_eraseIdx_of_lt h1, hlen]
  have h2 : r2 % (l.eraseIdx (r1 % l.length)).length <
      (l.eraseIdx (r1 % l.length)).length := Nat.mod_lt _ (by omega)
  have hlen2 : ((l.eraseIdx (r1 % l.length)).eraseIdx
      (r2 % (l.eraseIdx (r1 % l.length)).length)).length = 2 := by
    rw [List.length_eraseIdx_of_lt h2, hlen1]
  have h3 : r3 % ((l.eraseIdx (r1 % l.length)).eraseIdx
      (r2 % (l.eraseIdx (r1 % l.length)).length)).length <
      ((l.eraseIdx (r1 % l.length)).eraseIdx
      (r2 % (l.eraseIdx (r1 % l.length)).length)).length := Nat.mod_lt _ (by omega)
  have e1 := List.get?_eq_get h1
  have e2 := List.get?_eq_get h2
  have e3 := List.get?_eq_get h3
  have hs : sample3 l r1 r2 r3 =
      [l.get ⟨r1 % l.length, h1⟩,
       (l.eraseIdx (r1 % l.length)).get ⟨_, h2⟩,
       ((l.eraseIdx (r1 % l.length)).eraseIdx _).get ⟨_, h3⟩] := by
    simp only [sample3]
    rw [e1, e2, e3]
    rfl
  have nd1 : (l.eraseIdx (r1 % l.length)).Nodup :=
    hnd.sublist (List.eraseIdx_sublist l (r1 % l.length))
  have sub1 : ∀ y ∈ l.eraseIdx (r1 % l.length), y ∈ l :=
    fun y hy => (List.eraseIdx_sublist l (r1 % l.length)).subset hy
  have sub2 : ∀ y ∈ (l.eraseIdx (r1 % l.length)).eraseIdx
      (r2 % (l.eraseIdx (r1 % l.length)).length), y ∈ l.eraseIdx (r1 % l.length) :=
    fun y hy => (List.eraseIdx_sublist _ _).subset hy
  have m1 : l.get ⟨r1 % l.length, h1⟩ ∈ l := l.get_mem _ _
  have m2 : (l.eraseIdx (r1 % l.length)).get ⟨_, h2⟩ ∈ l.eraseIdx (r1 % l.length) :=
    List.get_mem _ _ _
  have m3 : ((l.eraseIdx (r1 % l.length)).eraseIdx _).get ⟨_, h3⟩ ∈
      (l.eraseIdx (r1 % l.length)).eraseIdx (r2 % (l.eraseIdx (r1 % l.length)).length) :=
    List.get_mem _ _ _
  have n1 : l.get ⟨r1 % l.length, h1⟩ ∉ l.eraseIdx (r1 % l.length) :=
    get_not_mem_eraseIdx l hnd _ _ e1
  have n2 : (l.eraseIdx (r1 % l.length)).get ⟨_, h2⟩ ∉
      (l.eraseIdx (r1 % l.length)).eraseIdx (r2 % (l.eraseIdx (r1 % l.length)).length) :=
    get_not_mem_eraseIdx _ nd1 _ _ e2
  refine ⟨by rw [hs]; rfl, ?_, ?_⟩
  · rw [hs]
    apply List.nodup_cons.mpr
    refine ⟨?_, ?_⟩
    · intro hmem
      rcases List.mem_cons.mp hmem with hEq | hmem2
      · exact n1 (by rw [hEq]; exact m2)
      · rcases List.mem_cons.mp hmem2 with hEq | hmem3
        · exact n1 (sub2 _ (by rw [hEq]; exact m3))
        · cases hmem3
    · apply List.nodup_cons.mpr
      refine ⟨?_, ?_⟩
      · intro hmem
        rcases List.mem_cons.mp hmem with hEq | hmem2
        · exact n2 (by rw [hEq]; exact m3)
        · cases hmem2
      · exact List.nodup_singleton _
  · intro x hx
    rw [hs] at hx
    rcases List.mem_cons.mp hx with rfl | hx2
    · exact m1
    rcases List.mem_cons.mp hx2 with rfl | hx3
    · exact sub1 _ m2
    rcases List.mem_cons.mp hx3 with rfl | hx4
    · exact sub1 _ (sub2 _ m3)
    · cases hx4

/-! Unfolding equations for the fields of a scan result. -/

theorem mock_scan_performance (url : String) (key : Option String)
    (call : GeminiOutcome) (rnd : ScanRand) (now : String) :
    (mock_scan url key call rnd now).performance = randint 75 98 rnd.perf := rfl

theorem mock_scan_accessibility (url : String) (key : Option String)
    (call : GeminiOutcome) (rnd : ScanRand) (now : String) :
    (mock_scan url key call rnd now).accessibility = randint 65 90 rnd.acc := rfl

theorem mock_scan_best_practices (url : String) (key : Option String)
    (call : GeminiOutcome) (rnd : ScanRand) (now : String) :
    (mock_scan url key call rnd now).best_practices = randint 80 100 rnd.best := rfl

theorem mock_scan_seo (url : String) (key : Option String)
    (call : GeminiOutcome) (rnd : ScanRand) (now : String) :
    (mock_scan url key call rnd now).seo = randint 70 95 rnd.seoR := rfl

theorem mock_scan_score (url : String) (key : Option String)
    (call : GeminiOutcome) (rnd : ScanRand) (now : String) :
    (mock_scan url key call rnd now).score =
      (randint 75 98 rnd.perf + randint 65 90 rnd.acc +
       randint 80 100 rnd.best + randint 70 95 rnd.seoR) / 4 := rfl

theorem mock_scan_summary (url : String) (key : Option String)
    (call : GeminiOutcome) (rnd : ScanRand) (now : String) :
    (mock_scan url key call rnd now).summary = summaryText key call := rfl

theorem mock_scan_strengths (url : String) (key : Option String)
    (call : GeminiOutcome) (rnd : ScanRand) (now : String) :
    (mock_scan url key call rnd now).strengths =
      sample3 strengthsCatalog rnd.s1 rnd.s2 rnd.s3 := rfl

theorem mock_scan_weaknesses (url : String) (key : Option String)
    (call : GeminiOutcome) (rnd : ScanRand) (now : String) :
    (mock_scan url key call rnd now).weaknesses =
      sample3 weaknessesCatalog rnd.w1 rnd.w2 rnd.w3 := rfl

/-! Claim theorems. -/

/-- C2: every scan's four category scores lie in their documented bounds
(performance in [75,98], accessibility in [65,90], best_practices in
[80,100], seo in [70,95]); the overall score is the floor of their sum
divided by 4 and lies in [0,100]. -/
theorem scan_scores_bounded (url : String) (key : Option String)
    (call : GeminiOutcome) (rnd : ScanRand) (now : String) :
    75 ≤ (mock_scan url key call rnd now).performance ∧
    (mock_scan url key call rnd now).performance ≤ 98 ∧
    65 ≤ (mock_scan url key call rnd now).accessibility ∧
    (mock_scan url key call rnd now).accessibility ≤ 90 ∧
    80 ≤ (mock_scan url key call rnd now).best_practices ∧
    (mock_scan url key call rnd now).best_practices ≤ 100 ∧
    70 ≤ (mock_scan url key call rnd now).seo ∧
    (mock_scan url key call rnd now).seo ≤ 95 ∧
    (mock_scan url key call rnd now).score =
      ((mock_scan url key call rnd now).performance +
       (mock_scan url key call rnd now).accessibility +
       (mock_scan url key call rnd now).best_practices +
       (mock_scan url key call rnd now).seo) / 4 ∧
    0 ≤ (mock_scan url key call rnd now).score ∧
    (mock_scan url key call rnd now).score ≤ 100 := by
  simp only [mock_scan_performance, mock_scan_accessibility,
    mock_scan_best_practices, mock_scan_seo, mock_scan_score, randint,
    true_and, and_true]
  omega

/-- C3: the scheduler's status/alert evaluation yields Critical iff the new
score is below 50, Warning iff it is in [50,70), Healthy otherwise, and an
alert iff the new score dropped strictly more than 10 below the old one;
including the three concrete examples of the spec. -/
theorem evaluate_spec (o n : Int) :
    ((evaluate o n).1 = Status.Critical ↔ n < 50) ∧
    ((evaluate o n).1 = Status.Warning ↔ 50 ≤ n ∧ n < 70) ∧
    ((evaluate o n).1 = Status.Healthy ↔ 70 ≤ n) ∧
    ((evaluate o n).2 = true ↔ n < o - 10) ∧
    evaluate 80 60 = (Status.Warning, true) ∧
    evaluate 80 72 = (Status.Healthy, false) ∧
    evaluate 40 30 = (Status.Critical, false) := by
  refine ⟨?_, ?_, ?_, ?_, by decide, by decide, by decide⟩
  · simp only [evaluate, statusOf]
    split_ifs <;> simp_all
  · simp only [evaluate, statusOf]
    split_ifs <;> simp_all
  · simp only [evaluate, statusOf]
    split_ifs <;> simp_all
    all_goals omega
  · simp [evaluate, alertOf]

/-- C10: a successful scheduled check always writes back a score of at least
72 (the minimum category sum 290 floors to 72), so the status it assigns is
always Healthy; Warning and Critical are unreachable through a successful
scan. -/
theorem successful_check_always_healthy (site : MonitoredSite)
    (key : Option String) (call : GeminiOutcome) (rnd : ScanRand)
    (tscan now : String) :
    72 ≤ (mock_scan site.url key call rnd tscan).score ∧
    (checkSite (fun u => some (mock_scan u key call rnd tscan).score) now
        site).status = Status.Healthy ∧
    (checkSite (fun u => some (mock_scan u key call rnd tscan).score) now
        site).status ≠ Status.Warning ∧
    (checkSite (fun u => some (mock_scan u key call rnd tscan).score) now
        site).status ≠ Status.Critical := by
  have h72 : 72 ≤ (mock_scan site.url key call rnd tscan).score := by
    simp only [mock_scan_score, randint]
    omega
  have hstat : (checkSite (fun u => some (mock_scan u key call rnd tscan).score)
      now site).status = statusOf ((mock_scan site.url key call rnd tscan).score : Int) := by
    simp [checkSite]
  have hH : statusOf ((mock_scan site.url key call rnd tscan).score : Int) =
      Status.Healthy := by
    have : (72 : Int) ≤ ((mock_scan site.url key call rnd tscan).score : Int) := by
      exact_mod_cast h72
    simp only [statusOf]
    rw [if_neg (by omega), if_neg (by omega)]
  rw [hstat, hH]
  exact ⟨h72, rfl, by simp, by simp⟩

/-- C1 counterexample: when the credential is missing, the Gemini branch is
skipped entirely, so the summary is the initial default string, not the
fixed fallback string the claim demands for every generator failure. -/
theorem summary_missing_key_not_fallback :
    (mock_scan "https://example.com" none GeminiOutcome.failure
      ⟨0, 0, 0, 0, 0, 0, 0, 0, 0, 0⟩ "2026-01-01 00:00 UTC").summary ≠
      fallbackSummary := by
  rw [mock_scan_summary]
  decide

/-- C1 (amended): a scan never propagates a narrative-generator failure (the
embedded `mock_scan` is total); when the credential is present and usable and
the generator call fails, the summary is the fixed fallback string verbatim;
when the credential is missing or unusable, the call is skipped and the
summary is the default string instead. -/
theorem scan_summary_on_generator_failure (url : String) (key : Option String)
    (rnd : ScanRand) (now : String) :
    (geminiKeyUsable key = true →
      (mock_scan url key GeminiOutcome.failure rnd now).summary =
        fallbackSummary) ∧
    (geminiKeyUsable key = false →
      (mock_scan url key GeminiOutcome.failure rnd now).summary =
        defaultSummary) := by
  constructor <;> intro h <;> rw [mock_scan_summary] <;> simp [summaryText, h]

/-- Witness for C1 (amended) at a usable key and a failing generator call. -/
theorem scan_summary_on_generator_failure_witness :
    (mock_scan "https://example.com" (some "real_api_key")
      GeminiOutcome.failure ⟨0, 0, 0, 0, 0, 0, 0, 0, 0, 0⟩ "t").summary =
      fallbackSummary :=
  (scan_summary_on_generator_failure "https://example.com" (some "real_api_key")
      ⟨0, 0, 0, 0, 0, 0, 0, 0, 0, 0⟩ "t").1 (by decide)

/-- C8: every scan's strengths are exactly 3 pairwise-distinct entries drawn
from the fixed 4-entry strengths catalog, and likewise for weaknesses. -/
theorem scan_findings_three_distinct (url : String) (key : Option String)
    (call : GeminiOutcome) (rnd : ScanRand) (now : String) :
    strengthsCatalog.length = 4 ∧ weaknessesCatalog.length = 4 ∧
    (mock_scan url key call rnd now).strengths.length = 3 ∧
    (mock_scan url key call rnd now).strengths.Nodup ∧
    (mock_scan url key call rnd now).strengths.all
      (fun x => decide (x ∈ strengthsCatalog)) = true ∧
    (mock_scan url key call rnd now).weaknesses.length = 3 ∧
    (mock_scan url key call rnd now).weaknesses.Nodup ∧
    (mock_scan url key call rnd now).weaknesses.all
      (fun x => decide (x ∈ weaknessesCatalog)) = true := by
  obtain ⟨sl, sn, sm⟩ :=
    sample3_spec strengthsCatalog rfl (by decide) rnd.s1 rnd.s2 rnd.s3
  obtain ⟨wl, wn, wm⟩ :=
    sample3_spec weaknessesCatalog rfl (by decide) rnd.w1 rnd.w2 rnd.w3
  rw [mock_scan_strengths, mock_scan_weaknesses]
  refine ⟨rfl, rfl, sl, sn, ?_, wl, wn, ?_⟩
  · exact List.all_eq_true.mpr (fun x hx => decide_eq_true (sm x hx))
  · exact List.all_eq_true.mpr (fun x hx => decide_eq_true (wm x hx))

/-- C5 counterexample: invoked directly, the scan engine performs no input
validation; on the empty url it still returns a ScanResult (with that url
and a well-formed score) instead of rejecting. -/
theorem engine_accepts_empty_url :
    (mock_scan "" none GeminiOutcome.failure
      ⟨0, 0, 0, 0, 0, 0, 0, 0, 0, 0⟩ "t").url = "" ∧
    (mock_scan "" none GeminiOutcome.failure
      ⟨0, 0, 0, 0, 0, 0, 0, 0, 0, 0⟩ "t").score = 72 :=
  ⟨rfl, rfl⟩

/-- C5 (amended): an empty or absent url is rejected at the boundary by
`analyze` with a 400 "URL required" error before any scan; the engine itself
does not reject empty input and returns a ScanResult for it. -/
theorem analyze_rejects_empty_url (key : Option String) (call : GeminiOutcome)
    (rnd : ScanRand) (now : String) :
    analyze none key call rnd now = ApiResult.clientError 400 "URL required" ∧
    analyze (some "") key call rnd now =
      ApiResult.clientError 400 "URL required" ∧
    (mock_scan "" key call rnd now).url = "" :=
  ⟨rfl, rfl, rfl⟩

/-- C6 counterexample: the empty url is not present in the empty registry,
yet `add` rejects it with the missing-url error instead of appending a
record, so the claim fails at url = "". -/
theorem add_empty_url_rejected :
    add_monitor (some "") [] = (AddOutcome.urlRequired, ([] : Registry)) ∧
    AddOutcome.urlRequired ≠ AddOutcome.ok :=
  ⟨rfl, by decide⟩

/-- C6 (amended): for every registry state and non-empty url, adding an
already-present url fails with the duplicate error and leaves the registry
unchanged, while adding an absent url succeeds and appends exactly one
record with score 0, status Pending and lastCheck "Never". -/
theorem add_monitor_duplicate_or_append (sites : Registry) (url : String)
    (hne : url ≠ "") :
    (sites.any (fun s => s.url == url) = true →
      add_monitor (some url) sites = (AddOutcome.alreadyMonitored, sites)) ∧
    (sites.any (fun s => s.url == url) = false →
      add_monitor (some url) sites = (AddOutcome.ok, sites ++
        [{ url := url, score := 0, status := Status.Pending,
           last_check := "Never" }])) := by
  have hempty : url.isEmpty = false := by
    cases h : url.isEmpty
    · rfl
    · exact absurd ((String.isEmpty_iff url).mp h) hne
  constructor <;> intro h <;> simp [add_monitor, hempty, h]

/-- Witness for C6 (amended): a fresh add succeeds and the immediate
duplicate add fails, leaving the registry unchanged. -/
theorem add_monitor_duplicate_or_append_witness :
    add_monitor (some "https://a.com") [] = (AddOutcome.ok,
      [{ url := "https://a.com", score := 0, status := Status.Pending,
         last_check := "Never" }]) ∧
    add_monitor (some "https://a.com")
        [{ url := "https://a.com", score := 0, status := Status.Pending,
           last_check := "Never" }] =
      (AddOutcome.alreadyMonitored,
        [{ url := "https://a.com", score := 0, status := Status.Pending,
           last_check := "Never" }]) :=
  ⟨(add_monitor_duplicate_or_append [] "https://a.com" (by decide)).2 (by decide),
   (add_monitor_duplicate_or_append
      [{ url := "https://a.com", score := 0, status := Status.Pending,
         last_check := "Never" }] "https://a.com" (by decide)).1 (by decide)⟩

/-- C7: removing an absent url is a no-op (no error, no state change), and
remove is idempotent: removing the same url twice leaves the same state as
removing it once. -/
theorem remove_monitor_noop_idempotent (sites : Registry) (url : String) :
    (sites.all (fun s => s.url != url) = true →
      remove_monitor (some url) sites = sites) ∧
    remove_monitor (some url) (remove_monitor (some url) sites) =
      remove_monitor (some url) sites := by
  constructor
  · intro h
    simp only [remove_monitor]
    exact List.filter_eq_self.mpr (List.all_eq_true.mp h)
  · simp only [remove_monitor]
    rw [List.filter_filter]
    simp

/-- Witness for C7 at a registry not containing the removed url. -/
theorem remove_monitor_noop_idempotent_witness :
    remove_monitor (some "https://a.com")
        [{ url := "https://b.com", score := 0, status := Status.Pending,
           last_check := "Never" }] =
      [{ url := "https://b.com", score := 0, status := Status.Pending,
         last_check := "Never" }] ∧
    remove_monitor (some "https://a.com") (remove_monitor (some "https://a.com")
        [{ url := "https://b.com", score := 0, status := Status.Pending,
           last_check := "Never" }]) =
      remove_monitor (some "https://a.com")
        [{ url := "https://b.com", score := 0, status := Status.Pending,
           last_check := "Never" }] :=
  ⟨(remove_monitor_noop_idempotent
      [{ url := "https://b.com", score := 0, status := Status.Pending,
         last_check := "Never" }] "https://a.com").1 (by decide),
   (remove_monitor_noop_idempotent
      [{ url := "https://b.com", score := 0, status := Status.Pending,
         last_check := "Never" }] "https://a.com").2⟩

/-- C4: a scheduler tick processes every record of the snapshot: a site
whose scan fails keeps its score and gets status Error, a site whose scan
succeeds is updated with the new score, status and lastCheck, and no record
is skipped or dropped. -/
theorem tick_isolates_per_site_failure (engine : String → Option Nat)
    (now : String) (sites : Registry) (i : Nat) (h : i < sites.length) :
    (check_monitored_sites engine now sites).length = sites.length ∧
    (engine (sites.get ⟨i, h⟩).url = none →
      (check_monitored_sites engine now sites).get
          ⟨i, by simpa [check_monitored_sites] using h⟩ =
        { sites.get ⟨i, h⟩ with status := Status.Error }) ∧
    (∀ ns, engine (sites.get ⟨i, h⟩).url = some ns →
      (check_monitored_sites engine now sites).get
          ⟨i, by simpa [check_monitored_sites] using h⟩ =
        { sites.get ⟨i, h⟩ with
            score := ns
            status := statusOf (ns : Int)
            last_check := now }) := by
  have hget : (check_monitored_sites engine now sites).get
      ⟨i, by simpa [check_monitored_sites] using h⟩ =
      checkSite engine now (sites.get ⟨i, h⟩) := by
    simp [check_monitored_sites]
  refine ⟨by simp [check_monitored_sites], ?_, ?_⟩
  · intro hfail
    rw [hget]
    unfold checkSite
    rw [hfail]
  · intro ns hok
    rw [hget]
    unfold checkSite
    rw [hok]

/-- Witness for C4: two registered sites, the engine failing for exactly the
first; the first record keeps its score and is marked Error, the second is
still updated. -/
theorem tick_isolates_per_site_failure_witness :
    (check_monitored_sites
        (fun u => if u = "https://a.com" then none else some 60) "t1"
        [{ url := "https://a.com", score := 80, status := Status.Healthy,
           last_check := "t0" },
         { url := "https://b.com", score := 80, status := Status.Healthy,
           last_check := "t0" }]).length = 2 ∧
    (check_monitored_sites
        (fun u => if u = "https://a.com" then none else some 60) "t1"
        [{ url := "https://a.com", score := 80, status := Status.Healthy,
           last_check := "t0" },
         { url := "https://b.com", score := 80, status := Status.Healthy,
           last_check := "t0" }]).get ⟨0, by decide⟩ =
      { url := "https://a.com", score := 80, status := Status.Error,
        last_check := "t0" } ∧
    (check_monitored_sites
        (fun u => if u = "https://a.com" then none else some 60) "t1"
        [{ url := "https://a.com", score := 80, status := Status.Healthy,
           last_check := "t0" },
         { url := "https://b.com", score := 80, status := Status.Healthy,
           last_check := "t0" }]).get ⟨1, by decide⟩ =
      { url := "https://b.com", score := 60, status := statusOf (60 : Int),
        last_check := "t1" } :=
  ⟨(tick_isolates_per_site_failure
      (fun u => if u = "https://a.com" then none else some 60) "t1"
      [{ url := "https://a.com", score := 80, status := Status.Healthy,
         last_check := "t0" },
       { url := "https://b.com", score := 80, status := Status.Healthy,
         last_check := "t0" }] 0 (by decide)).1,
   (tick_isolates_per_site_failure
      (fun u => if u = "https://a.com" then none else some 60) "t1"
      [{ url := "https://a.com", score := 80, status := Status.Healthy,
         last_check := "t0" },
       { url := "https://b.com", score := 80, status := Status.Healthy,
         last_check := "t0" }] 0 (by decide)).2.1 (by decide),
   (tick_isolates_per_site_failure
      (fun u => if u = "https://a.com" then none else some 60) "t1"
      [{ url := "https://a.com", score := 80, status := Status.Healthy,
         last_check := "t0" },
       { url := "https://b.com", score := 80, status := Status.Healthy,
         last_check := "t0" }] 1 (by decide)).2.2 60 (by decide)⟩

/-- The per-site check never changes which url a record is for. -/
theorem checkSite_url (engine : String → Option Nat) (now : String)
    (s : MonitoredSite) : (checkSite engine now s).url = s.url := by
  cases hres : engine s.url <;> simp [checkSite, hres]

/-- Each single operation preserves uniqueness of urls in the registry. -/
theorem stepOp_preserves_urlsNodup (sites : Registry) (op : Op)
    (h : urlsNodup sites) : urlsNodup (stepOp sites op) := by
  cases op with
  | add u =>
    cases u with
    | none => exact h
    | some url =>
      by_cases he : url.isEmpty = true
      · simpa [stepOp, add_monitor, he] using h
      · by_cases hdup : sites.any (fun s => s.url == url) = true
        · simpa [stepOp, add_monitor, he, hdup] using h
        · simp only [stepOp, add_monitor, he, hdup, if_false,
            Bool.false_eq_true, if_neg]
          simp only [urlsNodup, List.map_append, List.map_cons, List.map_nil,
            List.nodup_append]
          refine ⟨h, List.nodup_singleton _, ?_⟩
          intro a ha hb
          have hau : a = url := List.mem_singleton.mp hb
          rcases List.mem_map.mp ha with ⟨s, hs, hsa⟩
          apply hdup
          refine List.any_eq_true.mpr ⟨s, hs, ?_⟩
          rw [beq_iff_eq, hsa, hau]
  | rem u =>
    cases u with
    | none => simpa [stepOp, remove_monitor] using h
    | some url =>
      exact h.sublist ((List.filter_sublist sites).map (fun s => s.url))
  | tick engine now =>
    show urlsNodup (check_monitored_sites engine now sites)
    unfold urlsNodup check_monitored_sites
    rw [List.map_map]
    have hmaps : sites.map ((fun s => s.url) ∘ checkSite engine now) =
        sites.map (fun s => s.url) :=
      List.map_congr_left (fun s _ => checkSite_url engine now s)
    rw [hmaps]
    exact h

/-- Any operation sequence starting from a unique-url registry keeps the
urls unique. -/
theorem foldl_stepOp_preserves_urlsNodup (ops : List Op) :
    ∀ start : Registry, urlsNodup start →
      urlsNodup (ops.foldl stepOp start) := by
  induction ops with
  | nil => exact fun _ hs => hs
  | cons op t ih => exact fun s hs => ih _ (stepOp_preserves_urlsNodup s op hs)

/-- C9: every registry state reachable from the empty registry by any
sequence of add, remove and scheduler-tick operations contains at most one
record per url. -/
theorem registry_at_most_one_record_per_url (ops : List Op) :
    urlsNodup (runOps ops) :=
  foldl_stepOp_preserves_urlsNodup ops [] (by simp [urlsNodup])
